import Mathlib

/-!
Shallow embedding of the profiling graph view controller
(src/bkmonitor/webpack/src/trace/plugins/charts/profiling-graph/profiling-graph.tsx)
and of the application-list utilities
(src/bkmonitor/webpack/src/apm/pages/home/utils.ts).

Each asynchronous handler of the controller is embedded as an atomic
transition on the controller state: the handler receives the outcome of
the single backend query it awaits (the event loop runs handlers one at
a time, and each handler performs at most one query), together with the
prior state, and returns the final state paired with the list of
backend requests it issued.
-/

/-- Opaque table row produced by the backend (ProfilingTableItem); the
controller passes rows through without interpreting their fields, so a
row is embedded as an opaque token. -/
abbrev ProfilingTableItem := String

/-- Flame tree node (BaseDataType from the chart-plugins typings): the
controller initialises flameData to the record with name = fixed empty
string, children = undefined and id = fixed empty string, and otherwise
passes nodes through unmodified. Constructor fields are name, id,
children in that order. -/
inductive BaseDataType where
  | node (name : String) (id : String) (children : Option (List BaseDataType))

/-- The diagrams field of a backend query response; every field may be
absent, which JavaScript reads as undefined. -/
structure Diagrams where
  unit : Option String
  table_data : Option (List ProfilingTableItem)
  flame_data : Option BaseDataType
  call_graph_data : Option String

/-- View modes of the controller (ViewModeType from the chart-plugins
typings, referenced by the source as Combine and Topo; the spec lists
all four members). -/
inductive ViewModeType where
  | Combine
  | Table
  | Flame
  | Topo
  deriving DecidableEq

/-- A backend request issued by a handler: the diagram_types selector
list merged into the parameters, and the optional sort directive. -/
structure DiagramRequest where
  diagram_types : List String
  sort : Option String
  deriving DecidableEq

/-- Outcome of the awaited query call inside handleQuery. The call is
written query(params).catch(() => false), so a transport failure yields
the value false, whose diagrams field is undefined: that case and a
successful response without a diagrams field are both ok none. The
thrown case models a synchronous exception inside the try block, which
the catch block of handleQuery handles. -/
inductive QueryOutcome where
  | ok (data : Option Diagrams)
  | thrown

/-- The reactive state owned by the controller instance (the refs
declared in setup). highlightId is an integer initialised to -1. -/
structure GraphState where
  empty : Bool
  activeMode : ViewModeType
  textDirection : String
  isLoading : Bool
  tableData : List ProfilingTableItem
  flameData : Option BaseDataType
  unit : String
  highlightId : Int
  filterKeyword : String
  topoSrc : String

/-- The initial values of the refs declared in setup. -/
def initState : GraphState :=
  { empty := true
    activeMode := ViewModeType.Combine
    textDirection := "ltr"
    isLoading := false
    tableData := []
    flameData := some (BaseDataType.node "" "" none)
    unit := ""
    highlightId := -1
    filterKeyword := ""
    topoSrc := "" }

/-- JavaScript String.prototype.trim embedded over the character list:
it removes leading and trailing whitespace. Char.isWhitespace covers
space, tab, carriage return and line feed; the full JavaScript
whitespace set is larger, but every string appearing in the claims
below uses plain ASCII spaces, on which the two sets agree. -/
def jsTrim (s : String) : String :=
  String.mk
    (((s.data.dropWhile Char.isWhitespace).reverse.dropWhile Char.isWhitespace).reverse)

/-- Derived state flameFilterKeywords: the source computes
filterKeyword.value.trim().length ? [filterKeyword.value] : [], i.e. it
tests the trimmed length for truthiness but places the original,
untrimmed keyword in the list. -/
def flameFilterKeywords (filterKeyword : String) : List String :=
  if (jsTrim filterKeyword).length ≠ 0 then [filterKeyword] else []

/-- The derived state as the specification words it: a single-element
list containing the trimmed filter keyword, or empty when the keyword
is blank or whitespace-only. Declared only to be compared with the
source definition flameFilterKeywords. -/
def flameFilterKeywordsSpec (filterKeyword : String) : List String :=
  if (jsTrim filterKeyword).length ≠ 0 then [jsTrim filterKeyword] else []

/-- A JavaScript value appearing in the request parameter object. -/
inductive JVal where
  | str (s : String)
  | num (n : Int)
  | strs (l : List String)
  deriving DecidableEq

/-- Field lookup in a JavaScript record embedded as a key-value list. -/
def lookupField (r : List (String × JVal)) (k : String) : Option JVal :=
  match r.find? (fun p => p.1 == k) with
  | some p => some p.2
  | none => none

/-- getParams from the source: the object literal spreads args, then
queryParams (later spreads win on key collisions), then sets start and
end to the time-range seconds times ten to the sixth, and finally the
hardcoded fields app_name = fixed string profiling_bar and
service_name = fixed string fuxi_gin (both under a TODO comment), which
therefore override any values supplied in queryParams or args. The
result is embedded as the lookup function of the built object;
startSec and endSec are the seconds returned by the external
handleTransformToTimestamp on the time range. -/
def getParams (args queryParams : List (String × JVal)) (startSec endSec : Int)
    (k : String) : Option JVal :=
  if k = "start" then some (JVal.num (startSec * 10 ^ 6))
  else if k = "end" then some (JVal.num (endSec * 10 ^ 6))
  else if k = "app_name" then some (JVal.str "profiling_bar")
  else if k = "service_name" then some (JVal.str "fuxi_gin")
  else
    match lookupField queryParams k with
    | some v => some v
    | none => lookupField args k

/-- handleQuery from the source: sets isLoading, resets highlightId,
requests the table and flamegraph diagram types, and on the response
either stores unit (defaulted to the empty string), tableData
(defaulted to the empty list), flameData (no default) and clears empty,
or sets empty; isLoading is cleared at the end of the try block and in
the catch block. Returns the final state and the requests issued. -/
def handleQuery (o : QueryOutcome) (s : GraphState) :
    GraphState × List DiagramRequest :=
  match o with
  | QueryOutcome.ok (some d) =>
    ({ s with isLoading := false
              highlightId := -1
              unit := d.unit.getD ""
              tableData := d.table_data.getD []
              flameData := d.flame_data
              empty := false },
      [{ diagram_types := ["table", "flamegraph"], sort := none }])
  | QueryOutcome.ok none =>
    ({ s with isLoading := false, highlightId := -1, empty := true },
      [{ diagram_types := ["table", "flamegraph"], sort := none }])
  | QueryOutcome.thrown =>
    ({ s with isLoading := false, highlightId := -1, empty := true }, [])

/-- handleModeChange from the source: returns unchanged when the new
mode equals the active mode; otherwise resets highlightId and updates
activeMode, and only when the new mode is Topo and topoSrc is the empty
string (the falsy case of the guard) sets isLoading, requests the
callgraph diagram type, stores call_graph_data defaulted to the empty
string when the response has a diagrams field, and clears isLoading.
The query call carries catch(() => false), so its failure is the none
outcome rather than an exception. -/
def handleModeChange (val : ViewModeType) (o : Option Diagrams) (s : GraphState) :
    GraphState × List DiagramRequest :=
  if val = s.activeMode then (s, [])
  else
    let s1 := { s with highlightId := -1, activeMode := val }
    if val = ViewModeType.Topo then
      if s.topoSrc = "" then
        (match o with
          | some d => { s1 with topoSrc := d.call_graph_data.getD "", isLoading := false }
          | none => { s1 with isLoading := false },
          [{ diagram_types := ["callgraph"], sort := none }])
      else (s1, [])
    else (s1, [])

/-- handleSortChange from the source: requests the table diagram type
with the sort key merged into the parameters; when the response has a
diagrams field it resets highlightId and replaces tableData (defaulted
to the empty list); otherwise it changes nothing. The query call
carries catch(() => false), so a failed request is the none outcome. -/
def handleSortChange (sortKey : String) (o : Option Diagrams) (s : GraphState) :
    GraphState × List DiagramRequest :=
  (match o with
    | some d => { s with highlightId := -1, tableData := d.table_data.getD [] }
    | none => s,
    [{ diagram_types := ["table"], sort := some sortKey }])

/-- Modelled from the spec: the debounce combinator of the external
throttle-debounce library, used by the source on the queryParams
watcher as debounce(16, handler), is missing from src. Following the
spec it coalesces trailing-edge: a pending timer is replaced by each
new trigger and the handler fires once the 16 millisecond quiet period
elapses. Given the ascending trigger times of the watcher, this counts
the handler invocations: a trigger whose successor arrives within 16
milliseconds is absorbed; every other trigger fires once. -/
def debounceFireCount : List Nat → Nat
  | [] => 0
  | [_] => 1
  | t1 :: t2 :: rest =>
      (if t2 - t1 < 16 then 0 else 1) + debounceFireCount (t2 :: rest)

/-- The timeRange watcher in the source invokes handleQuery directly in
its callback, with no debounce wrapper: every trigger fires one fetch. -/
def timeRangeFireCount (events : List Nat) : Nat := events.length

/-- All consecutive gaps of the ascending trigger-time list are below
the 16 millisecond debounce window. -/
def gapsWithin16 : List Nat → Bool
  | [] => true
  | [_] => true
  | t1 :: t2 :: rest => decide (t2 - t1 < 16) && gapsWithin16 (t2 :: rest)

/-- charColor from src/bkmonitor/webpack/src/apm/pages/home/utils.ts:
the input JavaScript string is embedded as its list of UTF-16 code
units, so charCodeAt of zero is the head of the list; the hue is that
code modulo 360 and the result is the template string
hsl(hue, 50percent, 50percent). The claims only concern inputs with at
least one character, so the head default is never exercised there. -/
def charColor (codeUnits : List Nat) : String :=
  "hsl(" ++ toString (codeUnits.headD 0 % 360) ++ ", 50%, 50%)"

/-- Sample backend diagrams payload used by concrete witnesses. -/
def sampleDiagrams : Diagrams :=
  { unit := some "ms"
    table_data := some ["r1"]
    flame_data := some (BaseDataType.node "root" "1" none)
    call_graph_data := some "digraph" }

/-- Controller state holding a cached topology source. -/
def cachedTopoState : GraphState := { initState with topoSrc := "digraph" }

/-- Sample externally supplied query parameters used for claim C2. -/
def sampleQueryParams : List (String × JVal) :=
  [("service_name", JVal.str "x"), ("app_name", JVal.str "y"),
   ("profile_id", JVal.str "p")]

/-- A string has nonzero length exactly when it is not the empty
string; helper for the filter-keyword claims. -/
theorem string_length_ne_zero_iff (s : String) : s.length ≠ 0 ↔ s ≠ "" := by
  constructor
  · intro h he
    exact h (he ▸ rfl)
  · intro h hl
    apply h
    cases s with
    | mk data =>
      cases data with
      | nil => rfl
      | cons c cs => simp [String.length] at hl

/-- Claim C1, counterexample: on the keyword consisting of a space, the
letter a and a space, the source places the untrimmed keyword in the
derived list, which differs from the single-element list containing the
trimmed keyword that the claim states. -/
theorem flameFilterKeywords_untrimmed_cex :
    flameFilterKeywords " a " ≠ flameFilterKeywordsSpec " a " := by decide

/-- Claim C1 as amended: flameFilterKeywords is the empty list when the
keyword is empty or whitespace-only (its trim is empty), and otherwise
is the single-element list containing the original, untrimmed keyword. -/
theorem flameFilterKeywords_amended (k : String) :
    flameFilterKeywords k = if jsTrim k = "" then [] else [k] := by
  unfold flameFilterKeywords
  by_cases h : jsTrim k = ""
  · simp [h]
  · simp [h, (string_length_ne_zero_iff (jsTrim k)).mpr h]

/-- Claim C2: evaluated at externally supplied query parameters that
carry their own service name and app name, the built parameter object
returns the hardcoded values profiling_bar and fuxi_gin instead of the
supplied ones, while start and end are the seconds times ten to the
sixth and any other supplied field passes through unchanged. -/
theorem getParams_hardcoded_override :
    getParams [] sampleQueryParams 5 7 "service_name" = some (JVal.str "fuxi_gin")
    ∧ getParams [] sampleQueryParams 5 7 "app_name" = some (JVal.str "profiling_bar")
    ∧ getParams [] sampleQueryParams 5 7 "service_name" ≠ some (JVal.str "x")
    ∧ getParams [] sampleQueryParams 5 7 "app_name" ≠ some (JVal.str "y")
    ∧ getParams [] sampleQueryParams 5 7 "start" = some (JVal.num 5000000)
    ∧ getParams [] sampleQueryParams 5 7 "end" = some (JVal.num 7000000)
    ∧ getParams [] sampleQueryParams 5 7 "profile_id" = some (JVal.str "p") := by
  refine ⟨rfl, rfl, ?_, ?_, by decide, by decide, rfl⟩ <;> decide

/-- Claim C4: on every outcome of the table and flamegraph fetch
(response with diagrams, response without diagrams or transport
failure, thrown exception) handleQuery completes with isLoading
false. -/
theorem handleQuery_clears_isLoading (o : QueryOutcome) (s : GraphState) :
    (handleQuery o s).1.isLoading = false := by
  cases o with
  | ok d => cases d <;> rfl
  | thrown => rfl

/-- Claim C5: when the fetch fails or the payload lacks a diagrams
field, and also on a thrown exception, handleQuery sets empty and
leaves tableData, flameData and unit at their prior values, with
isLoading false at completion. -/
theorem handleQuery_failure_frame (o : QueryOutcome) (s : GraphState)
    (h : o = QueryOutcome.ok none ∨ o = QueryOutcome.thrown) :
    (handleQuery o s).1.empty = true
    ∧ (handleQuery o s).1.tableData = s.tableData
    ∧ (handleQuery o s).1.flameData = s.flameData
    ∧ (handleQuery o s).1.unit = s.unit
    ∧ (handleQuery o s).1.isLoading = false := by
  rcases h with h | h <;> subst h <;> exact ⟨rfl, rfl, rfl, rfl, rfl⟩

/-- Witness for claim C5 at the concrete no-diagrams outcome applied to
the initial controller state. -/
theorem handleQuery_failure_frame_witness :
    (handleQuery (QueryOutcome.ok none) initState).1.empty = true
    ∧ (handleQuery (QueryOutcome.ok none) initState).1.tableData = initState.tableData
    ∧ (handleQuery (QueryOutcome.ok none) initState).1.flameData = initState.flameData
    ∧ (handleQuery (QueryOutcome.ok none) initState).1.unit = initState.unit
    ∧ (handleQuery (QueryOutcome.ok none) initState).1.isLoading = false :=
  handleQuery_failure_frame (QueryOutcome.ok none) initState (Or.inl rfl)

/-- Claim C9: on every outcome, handleSortChange leaves isLoading,
empty, flameData, unit, topoSrc and activeMode unchanged: a sort
re-request never shows the spinner and never switches the view to the
empty state. -/
theorem handleSortChange_frame (k : String) (o : Option Diagrams) (s : GraphState) :
    (handleSortChange k o s).1.isLoading = s.isLoading
    ∧ (handleSortChange k o s).1.empty = s.empty
    ∧ (handleSortChange k o s).1.flameData = s.flameData
    ∧ (handleSortChange k o s).1.unit = s.unit
    ∧ (handleSortChange k o s).1.topoSrc = s.topoSrc
    ∧ (handleSortChange k o s).1.activeMode = s.activeMode := by
  cases o <;> exact ⟨rfl, rfl, rfl, rfl, rfl, rfl⟩

/-- Claim C10: for every string with at least one character, charColor
is the string hsl(h, 50 percent, 50 percent) where h is the first code
unit modulo 360, so h is below 360, and any string sharing the same
first code unit maps to the same color. -/
theorem charColor_spec (cs : List Nat) (_h : cs ≠ []) :
    cs.headD 0 % 360 < 360
    ∧ charColor cs = "hsl(" ++ toString (cs.headD 0 % 360) ++ ", 50%, 50%)"
    ∧ ∀ ds : List Nat, ds.headD 0 = cs.headD 0 → charColor ds = charColor cs := by
  refine ⟨Nat.mod_lt _ (by decide), rfl, ?_⟩
  intro ds hd
  unfold charColor
  rw [hd]

/-- Witness for claim C10 at the single code unit 104 (the letter h)
and the two-unit list sharing that first code. -/
theorem charColor_spec_witness :
    List.headD [104] 0 % 360 < 360 ∧ charColor [104, 200] = charColor [104] :=
  ⟨(charColor_spec [104] (by decide)).1,
   (charColor_spec [104] (by decide)).2.2 [104, 200] rfl⟩

/-- Claim C3, counterexample: with a cached topology source, a
query-parameter fetch (handleQuery, here on a successful response)
leaves the cached topology source in place rather than resetting it,
and a subsequent switch to Topo therefore issues no request: the
claimed reset of all cached data on a query-parameter change does not
happen. -/
theorem handleQuery_keeps_topoSrc_cex :
    (handleQuery (QueryOutcome.ok (some sampleDiagrams)) cachedTopoState).1.topoSrc = "digraph"
    ∧ "digraph" ≠ ("" : String)
    ∧ (handleModeChange ViewModeType.Topo none
        (handleQuery (QueryOutcome.ok (some sampleDiagrams)) cachedTopoState).1).2 = [] :=
  ⟨rfl, by decide, rfl⟩

/-- Claim C3 as amended: table/flame data and topology data are fetched
independently — for every mode change, every request it issues is for
the callgraph diagram type alone (so a mode switch never re-fetches the
table or flamegraph data) and tableData and flameData are unchanged; a
mode change with a non-empty cached topology source issues no request
at all; and a query-parameter fetch does not reset the cached topology
source. -/
theorem fetch_independence (val : ViewModeType) (o : Option Diagrams)
    (oq : QueryOutcome) (s : GraphState) :
    (∀ r ∈ (handleModeChange val o s).2, r.diagram_types = ["callgraph"])
    ∧ (handleModeChange val o s).1.tableData = s.tableData
    ∧ (handleModeChange val o s).1.flameData = s.flameData
    ∧ (s.topoSrc ≠ "" → (handleModeChange val o s).2 = [])
    ∧ (handleQuery oq s).1.topoSrc = s.topoSrc := by
  have hq : (handleQuery oq s).1.topoSrc = s.topoSrc := by
    cases oq with
    | ok d => cases d <;> rfl
    | thrown => rfl
  unfold handleModeChange
  by_cases h1 : val = s.activeMode
  · simp [h1, hq]
  · by_cases h2 : val = ViewModeType.Topo
    · subst h2
      by_cases h3 : s.topoSrc = ""
      · cases o <;> simp [h1, h3, hq]
      · simp [h1, h3, hq]
    · simp [h1, h2, hq]

/-- Witness for claim C3 as amended: switching to Topo from the initial
state (empty cached source, the one case that issues a request) leaves
the table and flame data in place and requests only the callgraph
diagram type; switching to Topo while a topology source is cached
issues no request; and a parameter fetch keeps the cache. -/
theorem fetch_independence_witness :
    (handleModeChange ViewModeType.Topo (some sampleDiagrams) initState).1.tableData
        = initState.tableData
    ∧ (handleModeChange ViewModeType.Topo (some sampleDiagrams) initState).1.flameData
        = initState.flameData
    ∧ ({ diagram_types := ["callgraph"], sort := none } : DiagramRequest).diagram_types
        = ["callgraph"]
    ∧ (handleModeChange ViewModeType.Topo none cachedTopoState).2 = []
    ∧ (handleQuery (QueryOutcome.ok none) cachedTopoState).1.topoSrc = cachedTopoState.topoSrc :=
  ⟨(fetch_independence ViewModeType.Topo (some sampleDiagrams)
      (QueryOutcome.ok none) initState).2.1,
   (fetch_independence ViewModeType.Topo (some sampleDiagrams)
      (QueryOutcome.ok none) initState).2.2.1,
   (fetch_independence ViewModeType.Topo (some sampleDiagrams)
      (QueryOutcome.ok none) initState).1
     { diagram_types := ["callgraph"], sort := none } (by decide),
   (fetch_independence ViewModeType.Topo none
      (QueryOutcome.ok none) cachedTopoState).2.2.2.1 (by decide),
   (fetch_independence ViewModeType.Topo none
      (QueryOutcome.ok none) cachedTopoState).2.2.2.2⟩

/-- Claim C6: handleSortChange issues exactly one request, for the
table diagram type with the sort key merged in; on a response with a
diagrams field it replaces tableData with the returned rows (defaulted
to the empty list) and resets the highlight id, and on failure or a
response without diagrams it leaves the whole state unchanged. -/
theorem handleSortChange_spec (k : String) (o : Option Diagrams) (s : GraphState) :
    (handleSortChange k o s).2 = [{ diagram_types := ["table"], sort := some k }]
    ∧ (∀ d, o = some d →
        (handleSortChange k o s).1.tableData = d.table_data.getD []
        ∧ (handleSortChange k o s).1.highlightId = -1)
    ∧ (o = none → (handleSortChange k o s).1 = s) := by
  refine ⟨?_, ?_, ?_⟩
  · cases o <;> rfl
  · intro d hd
    subst hd
    exact ⟨rfl, rfl⟩
  · intro hn
    subst hn
    rfl

/-- Witness for claim C6 at a concrete successful response and a
concrete failed response, both from the initial state. -/
theorem handleSortChange_spec_witness :
    ((handleSortChange "cpu" (some sampleDiagrams) initState).1.tableData
        = sampleDiagrams.table_data.getD []
      ∧ (handleSortChange "cpu" (some sampleDiagrams) initState).1.highlightId = -1)
    ∧ (handleSortChange "cpu" none initState).1 = initState :=
  ⟨(handleSortChange_spec "cpu" (some sampleDiagrams) initState).2.1 sampleDiagrams rfl,
   (handleSortChange_spec "cpu" none initState).2.2 rfl⟩

/-- Claim C7: handleModeChange is a complete no-op when the new mode
equals the active mode; otherwise it resets the highlight id, updates
the active mode, and leaves tableData and flameData untouched; it
issues a request exactly when the new mode is Topo and the cached
topology source is empty, in which case the single request is for the
callgraph diagram type, loading is clear at completion, and the cached
source becomes the returned call-graph data defaulted to the empty
string (kept unchanged on a response without diagrams); in every other
case no request is issued and topoSrc and isLoading are unchanged. -/
theorem handleModeChange_spec (val : ViewModeType) (o : Option Diagrams) (s : GraphState) :
    (val = s.activeMode → handleModeChange val o s = (s, []))
    ∧ (val ≠ s.activeMode →
        (handleModeChange val o s).1.highlightId = -1
        ∧ (handleModeChange val o s).1.activeMode = val
        ∧ (handleModeChange val o s).1.tableData = s.tableData
        ∧ (handleModeChange val o s).1.flameData = s.flameData
        ∧ ((val = ViewModeType.Topo ∧ s.topoSrc = "") →
            (handleModeChange val o s).2 = [{ diagram_types := ["callgraph"], sort := none }]
            ∧ (handleModeChange val o s).1.isLoading = false
            ∧ (handleModeChange val o s).1.topoSrc =
                (match o with
                  | some d => d.call_graph_data.getD ""
                  | none => s.topoSrc))
        ∧ (¬(val = ViewModeType.Topo ∧ s.topoSrc = "") →
            (handleModeChange val o s).2 = []
            ∧ (handleModeChange val o s).1.topoSrc = s.topoSrc
            ∧ (handleModeChange val o s).1.isLoading = s.isLoading)) := by
  by_cases h1 : val = s.activeMode
  · exact ⟨fun _ => by simp [handleModeChange, h1], fun hne => absurd h1 hne⟩
  · refine ⟨fun h => absurd h h1, fun _ => ?_⟩
    by_cases h2 : val = ViewModeType.Topo
    · subst h2
      by_cases h3 : s.topoSrc = ""
      · cases o <;> simp [handleModeChange, h1, h3]
      · simp [handleModeChange, h1, h3]
    · simp [handleModeChange, h1, h2]

/-- Witness for claim C7: from the initial state, switching to the
current mode Combine is a no-op, and switching to Topo with the empty
cached source issues the callgraph-only request, ends with loading
clear, and stores the returned call-graph data. -/
theorem handleModeChange_spec_witness :
    handleModeChange ViewModeType.Combine (some sampleDiagrams) initState = (initState, [])
    ∧ ((handleModeChange ViewModeType.Topo (some sampleDiagrams) initState).2
          = [{ diagram_types := ["callgraph"], sort := none }]
        ∧ (handleModeChange ViewModeType.Topo (some sampleDiagrams) initState).1.isLoading = false
        ∧ (handleModeChange ViewModeType.Topo (some sampleDiagrams) initState).1.topoSrc
            = sampleDiagrams.call_graph_data.getD "") :=
  ⟨(handleModeChange_spec ViewModeType.Combine (some sampleDiagrams) initState).1 rfl,
   ((handleModeChange_spec ViewModeType.Topo (some sampleDiagrams) initState).2
      (by decide)).2.2.2.2.1 ⟨rfl, rfl⟩⟩

/-- Claim C8, counterexample: two time-range changes one millisecond
apart each invoke handleQuery directly, producing two fetches, where
the debounced behaviour the claim states would collapse them to one. -/
theorem timeRange_not_debounced_cex :
    timeRangeFireCount [0, 1] = 2
    ∧ debounceFireCount [0, 1] = 1
    ∧ timeRangeFireCount [0, 1] ≠ 1 := by decide

/-- Every burst of trigger times whose consecutive gaps stay below the
16 millisecond window collapses to a single debounced fire. -/
theorem debounceFireCount_burst (t : List Nat) :
    ∀ a, gapsWithin16 (a :: t) = true → debounceFireCount (a :: t) = 1 := by
  induction t with
  | nil =>
    intro a _
    rfl
  | cons b r ih =>
    intro a hg
    have hg' : (b - a < 16) ∧ gapsWithin16 (b :: r) = true := by
      simpa [gapsWithin16] using hg
    have he : debounceFireCount (a :: b :: r)
        = (if b - a < 16 then 0 else 1) + debounceFireCount (b :: r) := rfl
    rw [he, if_pos hg'.1, ih b hg'.2]

/-- Claim C8 as amended: query-parameter changes go through the 16
millisecond trailing debounce, so any nonempty burst of parameter
changes with consecutive gaps below 16 milliseconds collapses to
exactly one fetch, while time-range changes are not debounced and fire
one fetch per change. -/
theorem debounce_collapses_burst (ts : List Nat) (h : ts ≠ [])
    (hg : gapsWithin16 ts = true) :
    debounceFireCount ts = 1 ∧ timeRangeFireCount ts = ts.length := by
  cases ts with
  | nil => exact absurd rfl h
  | cons a t => exact ⟨debounceFireCount_burst t a hg, rfl⟩

/-- Witness for claim C8 as amended at the concrete burst of trigger
times zero, ten and twenty. -/
theorem debounce_collapses_burst_witness :
    debounceFireCount [0, 10, 20] = 1 ∧ timeRangeFireCount [0, 10, 20] = 3 :=
  debounce_collapses_burst [0, 10, 20] (by decide) (by decide)
